import Mathlib

/-!
Verification development for the majorca browser-automation library
(packages `browser`, `browser/chrome`, `browser/firefox`).

The Go source is shallowly embedded: pure data manipulation becomes Lean
functions, stateful methods become explicit state-passing functions, the
blocking wait on a pending channel is modelled by an explicit
`awaitingReply` suspension outcome, and lock usage is recorded in an
explicit event trace.  Machine integers (the `int32` request-id counter)
are modelled as `Int` with explicit wrap-around.
-/

namespace Majorca

/-! ## JSON values

Models the decoded form of a Go `json.RawMessage` / `interface{}`:
`nil`, `bool`, `float64`, `string`, `[]interface{}`, `map[string]interface{}`.
JSON numbers decode into Go `float64`; the development only needs
integer-valued numbers (the spec's example is `42`), so the `num`
constructor carries an `Int`.  Go's `fmt %v` renders an integer-valued
`float64` of magnitude below `10^21` as its plain decimal digits, which
is what `goFormatV` produces. -/
inductive Json where
  | null : Json
  | bool (b : Bool) : Json
  | num (n : Int) : Json
  | str (s : String) : Json
  | arr (xs : List Json) : Json
  | obj (fields : List (String × Json)) : Json

/-- Go `json` object field access: with duplicate keys the last wins. -/
def lookupLast (k : String) : List (String × Json) → Option Json
  | [] => none
  | (k', v) :: rest =>
    match lookupLast k rest with
    | some r => some r
    | none => if k' = k then some v else none

/-- Join rendered elements with single spaces, as Go `fmt` does inside
slice and map verbs. -/
def spaceJoin : List String → String
  | [] => ""
  | [s] => s
  | s :: rest => s ++ " " ++ spaceJoin rest

/-- Replace the value stored under a key, or append; used to model that
decoding a JSON object into a Go map keeps the last duplicate. -/
def upsert (k v : String) : List (String × String) → List (String × String)
  | [] => [(k, v)]
  | (k', v') :: rest => if k' = k then (k, v) :: rest else (k', v') :: upsert k v rest

def dedupLast (l : List (String × String)) : List (String × String) :=
  l.foldl (fun acc kv => upsert kv.1 kv.2 acc) []

/-- Insertion into a key-sorted list of rendered map entries: Go `fmt`
prints map keys in sorted order. -/
def insertSorted (kv : String × String) : List (String × String) → List (String × String)
  | [] => [kv]
  | kv' :: rest =>
    match compare kv.1 kv'.1 with
    | Ordering.gt => kv' :: insertSorted kv rest
    | _ => kv :: kv' :: rest

def sortEntries (l : List (String × String)) : List (String × String) :=
  l.foldr insertSorted []

/-- Go `fmt.Sprintf "%v"` on a JSON-decoded `interface{}` value
(chrome.go line 285): `nil` prints `<nil>`, booleans print `true`/`false`,
an integer-valued `float64` prints its decimal digits, strings print bare,
slices print `[e1 e2 ...]`, maps print `map[k1:v1 k2:v2 ...]` with keys
sorted. -/
def goFormatV : Json → String
  | Json.null => "<nil>"
  | Json.bool true => "true"
  | Json.bool false => "false"
  | Json.num n => toString n
  | Json.str s => s
  | Json.arr xs => "[" ++ spaceJoin (goFormatList xs) ++ "]"
  | Json.obj fields =>
    "map[" ++
      spaceJoin ((sortEntries (dedupLast (goFormatEntries fields))).map
        fun e => e.1 ++ ":" ++ e.2) ++ "]"
where
  goFormatList : List Json → List String
  | [] => []
  | x :: rest => goFormatV x :: goFormatList rest
  goFormatEntries : List (String × Json) → List (String × String)
  | [] => []
  | (k, v) :: rest => (k, goFormatV v) :: goFormatEntries rest
termination_by structural j => j

/-! ## The wire `Result` envelope (browser.go lines 23-30)

`Result` carries the correlation id, the raw `result` payload and an
optional protocol error `{code, message}`.  A Go `json.RawMessage` that
was never set marshals as JSON `null`, so an absent payload is
`Json.null`. -/
structure Result where
  id : Int
  result : Json
  error : Option (Int × String)

/-! ## Chrome `Eval` reply processing (chrome.go lines 258-287)

After the reply arrives, `Eval` checks the protocol error, then
unmarshals `res.Result` into
`struct { Result struct { Type string; Value interface{} } }`
(the marshal/unmarshal round-trip on a `json.RawMessage` is the identity
on the JSON value), and finally returns the value verbatim when it is a
string and `fmt.Sprintf "%v"` of it otherwise, paired with the type tag.

Go `json.Unmarshal` semantics modelled: JSON `null` into a struct, a
string field or an `interface{}` field leaves the zero value (`""` /
`nil`); an absent field likewise; a non-object, non-null value where a
struct is expected is a decode error, as is a non-string, non-null value
for the `Type` field.  Exact Go error prose is not reproduced; only
which inputs error matters. -/

/-- Decode the `type` field into the Go `string` struct field. -/
def decodeType : Option Json → Except String String
  | none => Except.ok ""
  | some Json.null => Except.ok ""
  | some (Json.str s) => Except.ok s
  | some _ => Except.error "cannot unmarshal value into Go string field Type"

/-- Decode the `value` field into the Go `interface` struct field. -/
def decodeValue : Option Json → Json
  | none => Json.null
  | some v => v

/-- Decode the inner `result` object into the pair of `Type` and `Value`. -/
def decodeInner : Json → Except String (String × Json)
  | Json.null => Except.ok ("", Json.null)
  | Json.obj fs =>
    match decodeType (lookupLast "type" fs) with
    | Except.error e => Except.error e
    | Except.ok t => Except.ok (t, decodeValue (lookupLast "value" fs))
  | _ => Except.error "cannot unmarshal value into Go struct field Result"

/-- Unmarshal `res.Result` into the `evalRes` structure of chrome.go
lines 263-268. -/
def decodeEvalRes : Json → Except String (String × Json)
  | Json.null => Except.ok ("", Json.null)
  | Json.obj fs =>
    match lookupLast "result" fs with
    | none => Except.ok ("", Json.null)
    | some inner => decodeInner inner
  | _ => Except.error "cannot unmarshal value into Go struct evalRes"

/-- Chrome `Eval`'s handling of a delivered reply (chrome.go lines
253-287): protocol error check, unmarshal, then the `switch` on the
value's dynamic type — a string is returned verbatim, anything else is
rendered with `fmt.Sprintf "%v"`, each paired with the type tag. -/
def evalHandleReply (res : Result) : Except String (String × String) :=
  match res.error with
  | some (_, msg) => Except.error ("evaluation error: " ++ msg)
  | none =>
    match decodeEvalRes res.result with
    | Except.error e => Except.error ("failed to unmarshal response: " ++ e)
    | Except.ok (t, v) =>
      match v with
      | Json.str s => Except.ok (s, t)
      | other => Except.ok (goFormatV other, t)

/-! ## Session state and lock-event traces

`chrome.Chrome` embeds `browser.BaseBrowser`: a websocket (`Ws`,
possibly nil), the outstanding-request registry `Pending` keyed by the
decimal string of the request id, and the `int32` id counter.  Channels
are single-use rendezvous points; for registry reasoning only the set of
registered keys matters, so `pending` is the list of keys with map
(set) semantics for insert and delete.

Because a pure model cannot run a blocking channel receive, a command
runs up to its suspension point and reports `awaitingReply` with the key
it blocks on; the post-reply processing is `evalHandleReply` above.
Every lock acquisition, release, id assignment, registry mutation,
outbound send and blocking wait is recorded, in source order, in an
event trace. -/

/-- Wrap-around of the `int32` request-id counter `c.Id`. -/
def int32wrap (n : Int) : Int := (n + 2 ^ 31) % 2 ^ 32 - 2 ^ 31

/-- Go map insert `m[k] = v` restricted to the key set. -/
def insertKey (k : String) (pending : List String) : List String :=
  k :: pending.filter fun k' => k' != k

/-- Go `delete(m, k)` restricted to the key set. -/
def eraseKey (k : String) (pending : List String) : List String :=
  pending.filter fun k' => k' != k

/-- One step of a command or dispatcher execution, in source order. -/
inductive Event where
  | lock : Event
  | unlock : Event
  | assignId : Event
  | registerSlot : Event
  | send : Event
  | cancelSlot : Event
  | await : Event
  | fulfillSlot : Event
deriving Repr, DecidableEq, BEq

/-- Annotate each event of a trace with the mutex hold depth at the
moment it happens (`lock` is annotated with the depth before acquiring,
`unlock` with the depth after releasing). -/
def eventsWithDepth : Nat → List Event → List (Event × Nat)
  | _, [] => []
  | d, Event.lock :: es => (Event.lock, d) :: eventsWithDepth (d + 1) es
  | d, Event.unlock :: es => (Event.unlock, d - 1) :: eventsWithDepth (d - 1) es
  | d, e :: es => (e, d) :: eventsWithDepth d es

/-- Does some blocking wait on a pending slot happen while the session
lock is held? -/
def awaitsUnderLock (tr : List Event) : Bool :=
  (eventsWithDepth 0 tr).any fun p => p.1 == Event.await && decide (0 < p.2)

/-- Does every occurrence of `e` in the trace happen while the session
lock is held? -/
def allUnderLock (e : Event) (tr : List Event) : Bool :=
  (eventsWithDepth 0 tr).all fun p => p.1 != e || decide (0 < p.2)

/-- The mutable Chrome session state touched by `Load`/`Eval`:
whether `c.Ws` is non-nil, the `Pending` key set, and the `int32`
counter `c.Id`. -/
structure ChromeState where
  wsConnected : Bool
  pending : List String
  id : Int
deriving Repr, DecidableEq

/-- How far a command got before returning or suspending. -/
inductive CmdOutcome where
  | notConnected : CmdOutcome
  | sendFailed : CmdOutcome
  | awaitingReply (idStr : String) : CmdOutcome
deriving Repr, DecidableEq

structure CmdStep where
  state : ChromeState
  outcome : CmdOutcome
  events : List Event
deriving Repr, DecidableEq

namespace chrome

/-- Chrome `Load` (chrome.go lines 173-216) up to its suspension point.
The method locks (line 174) with `defer c.Unlock()` (line 175), returns
a not-connected error when `c.Ws` is nil (lines 177-179), otherwise
builds the request with id `c.Id`, registers a fresh channel under
`fmt.Sprintf "%d" c.Id` and increments the counter (lines 181-192), and
sends (line 195).  On send failure it deletes the just-registered key
and returns (lines 196-197).  On success it blocks on `<-responseChan`
(line 202) **before** the deferred unlock runs: the trace records
`await` ahead of `unlock`.  `sendOk` is the environment's verdict on
`websocket.JSON.Send`. -/
def Load (st : ChromeState) (sendOk : Bool) : CmdStep :=
  if st.wsConnected = false then
    ⟨st, CmdOutcome.notConnected, [Event.lock, Event.unlock]⟩
  else
    let idStr := toString st.id
    let st' : ChromeState :=
      ⟨st.wsConnected, insertKey idStr st.pending, int32wrap (st.id + 1)⟩
    if sendOk = false then
      ⟨⟨st'.wsConnected, eraseKey idStr st'.pending, st'.id⟩, CmdOutcome.sendFailed,
        [Event.lock, Event.assignId, Event.registerSlot, Event.send,
         Event.cancelSlot, Event.unlock]⟩
    else
      ⟨st', CmdOutcome.awaitingReply idStr,
        [Event.lock, Event.assignId, Event.registerSlot, Event.send,
         Event.await, Event.unlock]⟩

/-- Chrome `Eval` (chrome.go lines 219-249) up to its suspension point.
Same structure as `Load`, except the unlock is explicit rather than
deferred: the nil-websocket path unlocks before returning (lines
221-223), the send-failure path deletes the key, unlocks and returns
(lines 241-243), and the success path unlocks (line 246) **before**
blocking on `<-responseChan` (line 249): the trace records `unlock`
ahead of `await`. -/
def Eval (st : ChromeState) (sendOk : Bool) : CmdStep :=
  if st.wsConnected = false then
    ⟨st, CmdOutcome.notConnected, [Event.lock, Event.unlock]⟩
  else
    let idStr := toString st.id
    let st' : ChromeState :=
      ⟨st.wsConnected, insertKey idStr st.pending, int32wrap (st.id + 1)⟩
    if sendOk = false then
      ⟨⟨st'.wsConnected, eraseKey idStr st'.pending, st'.id⟩, CmdOutcome.sendFailed,
        [Event.lock, Event.assignId, Event.registerSlot, Event.send,
         Event.cancelSlot, Event.unlock]⟩
    else
      ⟨st', CmdOutcome.awaitingReply idStr,
        [Event.lock, Event.assignId, Event.registerSlot, Event.send,
         Event.unlock, Event.await]⟩

/-- One delivery step of the dispatcher `handleResponse` (chrome.go
lines 161-167): compute the key from the inbound id, acquire the
session lock, and if the key is registered hand the result to the slot
and delete the entry; an unmatched reply is dropped.  Returns the new
key set and whether the reply was delivered. -/
def handleResponseDeliver (pending : List String) (resId : Int) :
    List String × Bool :=
  let idStr := toString resId
  if pending.contains idStr then (eraseKey idStr pending, true)
  else (pending, false)

/-- The lock events surrounding one dispatcher delivery (chrome.go lines
162-167): `c.Lock()`, the registry access and channel hand-off, then
`c.Unlock()`. -/
def handleResponseTrace : List Event :=
  [Event.lock, Event.fulfillSlot, Event.unlock]

end chrome

namespace firefox

/-- Firefox `Load` (firefox.go lines 220-222): the body is exactly
`return nil`, for any url and regardless of any session state; the
websocket field is passed to show the result does not depend on it. -/
def Load (wsConnected : Bool) (url : String) : Except String Unit :=
  Except.ok ()

/-- Firefox `Eval` (firefox.go lines 225-227): the body is exactly
`return "", "", nil`, for any expression and regardless of any session
state. -/
def Eval (wsConnected : Bool) (expr : String) : Except String (String × String) :=
  Except.ok ("", "")

end firefox

/-! ## Lifecycle manager (browser.go lines 44-95)

`BaseBrowser.Start` and `BaseBrowser.Kill` mutate process and shutdown
state under the session lock.  The model records: whether the `Done`
channel has been closed, how many times `close(b.Done)` actually
executed (closing a closed Go channel panics, so this count reaching 2
would be the bug the `select`/`default` guard prevents), whether the
websocket is open, whether the dispatcher goroutine is still running,
whether the process handle `b.Cmd.Process` is non-nil, how many times a
process was spawned, whether the OS process is alive, and the `Pending`
key set (which `Kill` never touches).

`Wg.Wait` (browser.go line 81) is modelled as the dispatcher having
exited by the time `Kill` proceeds: once `Done` is closed and the
websocket is closed, the receive in `handleResponse` fails, the loop
re-checks `Done` and returns (chrome.go lines 150-158).  The model
covers the runs in which `Kill` completes.

Environment inputs: `startOk` is the verdict of `exec.Cmd.Start`, and
`killSyscallOk` the verdict of `Process.Kill`; when the latter fails,
browser.go lines 84-91 probe `isProcessRunning` (modelled by the true
liveness bit) and treat an already-dead process as success. -/

structure LifeState where
  doneClosed : Bool
  closeCount : Nat
  wsOpen : Bool
  dispatcherRunning : Bool
  hasProc : Bool
  spawnCount : Nat
  procAlive : Bool
  pending : List String
deriving Repr, DecidableEq

namespace BaseBrowser

/-- Model of `BaseBrowser.Start` (browser.go lines 44-59): under the lock, if
`b.Cmd.Process` is already non-nil print and return nil; otherwise run
`b.Cmd.Start()`, returning its error on failure, else nil. -/
def Start (st : LifeState) (startOk : Bool) : LifeState × Option String :=
  if st.hasProc then (st, none)
  else if startOk then
    ({ st with hasProc := true, spawnCount := st.spawnCount + 1 }, none)
  else (st, some "failed to start browser")

/-- Model of `BaseBrowser.Kill` (browser.go lines 61-95): under the lock,
(1) close `b.Done` only if not already closed (the `select`/`default`
guard, lines 66-71); (2) best-effort close of the websocket if non-nil
(lines 73-78); (3) `b.Wg.Wait()` for the dispatcher to exit (line 81);
(4) if the process handle exists, `Process.Kill` it — on syscall
failure, return nil anyway if the process is no longer running, else
the error (lines 83-92).  The `Pending` map is never touched. -/
def Kill (st : LifeState) (killSyscallOk : Bool) : LifeState × Option String :=
  let st1 :=
    if st.doneClosed then st
    else { st with doneClosed := true, closeCount := st.closeCount + 1 }
  let st2 := { st1 with wsOpen := false }
  let st3 := { st2 with dispatcherRunning := false }
  if st3.hasProc then
    if killSyscallOk then ({ st3 with procAlive := false }, none)
    else if st3.procAlive then (st3, some "failed to kill browser process")
    else (st3, none)
  else (st3, none)

/-- Model of `BaseBrowser.Bind` (browser.go lines 107-115): under the lock, if
`name` is already a key of `b.Bindings` return the
"binding ... already exists" error leaving the map unchanged; otherwise
store `f` under `name` and return nil.  The map is an association list
with unique keys (uniqueness is maintained by `Bind` itself, the only
writer). -/
def Bind {F : Type} (bindings : List (String × F)) (name : String) (f : F) :
    List (String × F) × Option String :=
  if (bindings.lookup name).isSome then
    (bindings, some ("binding " ++ name ++ " already exists"))
  else ((name, f) :: bindings, none)

end BaseBrowser

/-! ## Connection establishment with retry (chrome.go lines 80-91,
firefox.go lines 156-167 — the two functions are textually identical)

`attempt i` is the outcome of the i-th `connectWebSocket()` call
(`none` = success, `some e` = the error).  The Go loop runs `i` from 0
to `maxRetries - 1`, returning nil on the first success; after the loop
it returns `fmt.Errorf("failed to connect to WebSocket after %d
attempts: %v", maxRetries, err)` where `err` is the last failure (a nil
`error` prints as `<nil>` under `%v`, reachable only when
`maxRetries = 0`). -/

def errText : Option String → String
  | none => "<nil>"
  | some e => e

/-- The loop of `connectWebSocketWithRetry`.  The Go loop counter `i`
runs from 0 while `i < maxRetries`; here the remaining iteration count
`maxRetries - i` is the structural recursion argument, `i` the loop
index and `err` the last failure in hand.  When the iterations are
exhausted the aggregated error embedding `maxRetries` and the last
failure is returned. -/
def retryFrom (attempt : Nat → Option String) (maxRetries : Nat) :
    Nat → Nat → Option String → Option String
  | 0, _, err =>
    some ("failed to connect to WebSocket after " ++ toString maxRetries ++
      " attempts: " ++ errText err)
  | remaining + 1, i, _ =>
    match attempt i with
    | none => none
    | some e => retryFrom attempt maxRetries remaining (i + 1) (some e)

namespace chrome

/-- Model of `chrome.connectWebSocketWithRetry` (chrome.go lines 80-91). -/
def connectWebSocketWithRetry (maxRetries : Nat) (attempt : Nat → Option String) :
    Option String :=
  retryFrom attempt maxRetries maxRetries 0 none

end chrome

namespace firefox

/-- Model of `firefox.connectWebSocketWithRetry` (firefox.go lines 156-167);
textually identical to the chrome version. -/
def connectWebSocketWithRetry (maxRetries : Nat) (attempt : Nat → Option String) :
    Option String :=
  retryFrom attempt maxRetries maxRetries 0 none

end firefox

/-! ## Helper lemmas -/

lemma eraseKey_insertKey (k : String) (l : List String) :
    eraseKey k (insertKey k l) = eraseKey k l := by
  simp [eraseKey, insertKey, List.filter_filter]

lemma eraseKey_of_not_mem (k : String) (l : List String) (h : k ∉ l) :
    eraseKey k l = l := by
  refine List.filter_eq_self.mpr fun a ha => ?_
  simp only [bne_iff_ne, ne_eq]
  exact fun heq => h (heq ▸ ha)

/-- The value of `err` when the retry loop hits exhaustion, as a
function of where the loop currently stands. -/
def finalErr (attempt : Nat → Option String) (remaining i : Nat)
    (err : Option String) : Option String :=
  if remaining = 0 then err else attempt (i + remaining - 1)

lemma retryFrom_success (attempt : Nat → Option String) (N : Nat) :
    ∀ (remaining i : Nat) (err : Option String) (k : Nat),
      i ≤ k → k < i + remaining →
      (∀ j, i ≤ j → j < k → attempt j ≠ none) → attempt k = none →
      retryFrom attempt N remaining i err = none := by
  intro remaining
  induction remaining with
  | zero => intro i err k hik hk _ _; omega
  | succ r ih =>
    intro i err k hik hk hfail hk0
    rw [retryFrom]
    rcases hai : attempt i with _ | e
    · exact rfl
    · have hne : i ≠ k := fun h => by rw [h, hk0] at hai; exact Option.noConfusion hai
      exact ih (i + 1) (some e) k (by omega) (by omega)
        (fun j h1 h2 => hfail j (by omega) h2) hk0

lemma retryFrom_exhaust (attempt : Nat → Option String) (N : Nat) :
    ∀ (remaining i : Nat) (err : Option String),
      (∀ j, i ≤ j → j < i + remaining → attempt j ≠ none) →
      retryFrom attempt N remaining i err =
        some ("failed to connect to WebSocket after " ++ toString N ++
          " attempts: " ++ errText (finalErr attempt remaining i err)) := by
  intro remaining
  induction remaining with
  | zero => intro i err _; rw [retryFrom]; rfl
  | succ r ih =>
    intro i err hfail
    rcases hai : attempt i with _ | e
    · exact absurd hai (hfail i (le_refl i) (by omega))
    · have hfe : finalErr attempt (r + 1) i err = finalErr attempt r (i + 1) (some e) := by
        rcases r with _ | r'
        · simp [finalErr, Nat.add_sub_cancel, hai]
        · unfold finalErr
          rw [if_neg (by omega), if_neg (by omega)]
          congr 1
          omega
      rw [retryFrom, hai]
      dsimp only
      rw [ih (i + 1) (some e) (fun j h1 h2 => hfail j (by omega) (by omega)), hfe]

/-! ## Claim theorems -/

/-- C1 counterexample: Chrome `Load` blocks on the pending slot's
channel (chrome.go line 202) while still holding the session lock — the
deferred unlock of line 175 runs only after the reply arrives — so the
claim that both `Load` and `Eval` release the lock before blocking is
false on the connected, send-succeeds path. -/
theorem chrome_load_waits_holding_lock :
    awaitsUnderLock (chrome.Load ⟨true, [], 1⟩ true).events = true := rfl

/-- C1 (amended): both `Load` and `Eval` assign the request id and
perform the outbound send while holding the session lock, and the
dispatcher's delivery also happens under that lock; `Eval` releases the
lock before blocking on the slot's fulfillment, but `Load` holds the
lock across the blocking wait. -/
theorem chrome_lock_discipline :
    ∀ (st : ChromeState) (sendOk : Bool),
      allUnderLock Event.assignId (chrome.Load st sendOk).events = true
      ∧ allUnderLock Event.send (chrome.Load st sendOk).events = true
      ∧ allUnderLock Event.assignId (chrome.Eval st sendOk).events = true
      ∧ allUnderLock Event.send (chrome.Eval st sendOk).events = true
      ∧ awaitsUnderLock (chrome.Eval st sendOk).events = false
      ∧ allUnderLock Event.fulfillSlot chrome.handleResponseTrace = true
      ∧ awaitsUnderLock (chrome.Load ⟨true, [], 1⟩ true).events = true := by
  intro st sendOk
  rcases st with ⟨ws, p, i⟩
  cases ws <;> cases sendOk <;>
    simp [chrome.Load, chrome.Eval, chrome.handleResponseTrace,
      awaitsUnderLock, allUnderLock, eventsWithDepth] <;>
    decide

/-- C2 counterexample: `BaseBrowser.Kill` never touches the `Pending`
map, so killing a session that still has a registered slot (key "1")
leaves the registry non-empty after `Kill` completes. -/
theorem kill_leaves_pending_counterexample :
    (BaseBrowser.Kill ⟨false, 0, true, true, true, 1, true, ["1"]⟩ true).1.pending = ["1"]
    ∧ ("1" :: ([] : List String)) ≠ [] := by
  exact ⟨rfl, by simp⟩

/-- C2 (amended): after `Kill` completes the stop signal is closed and
the dispatcher task has exited, but the outstanding-request registry is
exactly what it was when `Kill` was called — slots registered at that
moment remain registered, so the registry is empty afterwards only if
it was empty before. -/
theorem kill_stops_dispatcher_pending_unchanged :
    ∀ (st : LifeState) (killSyscallOk : Bool),
      (BaseBrowser.Kill st killSyscallOk).1.dispatcherRunning = false
      ∧ (BaseBrowser.Kill st killSyscallOk).1.doneClosed = true
      ∧ (BaseBrowser.Kill st killSyscallOk).1.pending = st.pending := by
  intro st k
  rcases st with ⟨dc, cc, ws, dr, hp, sc, pa, pd⟩
  cases dc <;> cases hp <;> cases pa <;> cases k <;>
    simp [BaseBrowser.Kill]

/-- C3: for a delivered `Eval` reply carrying `{type: t, value: v}`, a
string value is returned verbatim and any other value is rendered with
Go's `%v`, paired with the server-reported type tag; in particular
`{type:"string", value:"Example"}` yields `("Example", "string")` and
`{type:"number", value:42}` yields `("42", "number")`. -/
theorem eval_reply_string_verbatim_other_rendered :
    ∀ (t : String) (v : Json),
      evalHandleReply ⟨1, Json.obj [("result", Json.obj
          [("type", Json.str t), ("value", v)])], none⟩
        = Except.ok ((match v with | Json.str s => s | other => goFormatV other), t)
      ∧ evalHandleReply ⟨1, Json.obj [("result", Json.obj
          [("type", Json.str "string"), ("value", Json.str "Example")])], none⟩
        = Except.ok ("Example", "string")
      ∧ evalHandleReply ⟨1, Json.obj [("result", Json.obj
          [("type", Json.str "number"), ("value", Json.num 42)])], none⟩
        = Except.ok ("42", "number") := by
  intro t v
  refine ⟨?_, rfl, rfl⟩
  cases v <;> rfl

/-- C4 counterexample: Firefox's `Load` is a stub returning success, so
with no transport at all it does not return a NotConnected-style error,
refuting the claim's "for every browser variant". -/
theorem firefox_load_no_notconnected_counterexample :
    ¬ ∃ e, firefox.Load false "https://example.com" = Except.error e := by
  rintro ⟨e, h⟩
  exact Except.noConfusion h

/-- C4 (amended): Chrome's `Load` and `Eval` called with a nil websocket
return the not-connected error immediately — the state (including the
registry) is unchanged and the trace is just lock/unlock, with no
registration, send, or blocking wait; the Firefox variant's `Load` and
`Eval`, by contrast, are stubs that return success unconditionally and
never report NotConnected. -/
theorem not_connected_fails_fast :
    (∀ (st : ChromeState) (sendOk : Bool), st.wsConnected = false →
      chrome.Load st sendOk = ⟨st, CmdOutcome.notConnected, [Event.lock, Event.unlock]⟩
      ∧ chrome.Eval st sendOk = ⟨st, CmdOutcome.notConnected, [Event.lock, Event.unlock]⟩)
    ∧ (∀ (ws : Bool) (url : String), firefox.Load ws url = Except.ok ())
    ∧ (∀ (ws : Bool) (expr : String), firefox.Eval ws expr = Except.ok ("", "")) := by
  refine ⟨fun st sendOk h => ?_, fun ws url => rfl, fun ws expr => rfl⟩
  exact ⟨by simp [chrome.Load, h], by simp [chrome.Eval, h]⟩

/-- Closed instance of `not_connected_fails_fast` at a concrete
disconnected state. -/
theorem not_connected_fails_fast_witness :
    chrome.Load ⟨false, [], 1⟩ true
      = ⟨⟨false, [], 1⟩, CmdOutcome.notConnected, [Event.lock, Event.unlock]⟩
    ∧ chrome.Eval ⟨false, [], 1⟩ true
      = ⟨⟨false, [], 1⟩, CmdOutcome.notConnected, [Event.lock, Event.unlock]⟩ :=
  not_connected_fails_fast.1 ⟨false, [], 1⟩ true rfl

/-- C5: when the outbound send fails, both `Load` and `Eval` delete the
slot they just registered under the request id (the `delete(c.Pending,
idStr)` of chrome.go lines 196 and 241) and return the send-failure
outcome, so the registry is exactly what it was before the call — no
orphaned slot remains. -/
theorem send_failure_cancels_slot :
    ∀ (st : ChromeState), st.wsConnected = true → toString st.id ∉ st.pending →
      (chrome.Load st false).outcome = CmdOutcome.sendFailed
      ∧ (chrome.Load st false).state.pending = st.pending
      ∧ (chrome.Eval st false).outcome = CmdOutcome.sendFailed
      ∧ (chrome.Eval st false).state.pending = st.pending := by
  intro st h1 h2
  rcases st with ⟨ws, p, i⟩
  dsimp at h1 h2
  subst h1
  simp [chrome.Load, chrome.Eval, eraseKey_insertKey,
    eraseKey_of_not_mem (toString i) p h2]

/-- Closed instance of `send_failure_cancels_slot` at a connected state
with an empty registry. -/
theorem send_failure_cancels_slot_witness :
    (chrome.Load ⟨true, [], 1⟩ false).state.pending = []
    ∧ (chrome.Eval ⟨true, [], 1⟩ false).outcome = CmdOutcome.sendFailed :=
  ⟨(send_failure_cancels_slot ⟨true, [], 1⟩ rfl (by simp)).2.1,
   (send_failure_cancels_slot ⟨true, [], 1⟩ rfl (by simp)).2.2.1⟩

/-- C6: the retry wrapper (identical in chrome.go and firefox.go)
returns success as soon as one attempt succeeds within the budget, and
when all `N` attempts fail it returns the single aggregated error
embedding the attempt count `N` and the last underlying failure. -/
theorem connect_retry_semantics :
    (∀ (N k : Nat) (attempt : Nat → Option String),
      k < N → (∀ i, i < k → attempt i ≠ none) → attempt k = none →
      chrome.connectWebSocketWithRetry N attempt = none
      ∧ firefox.connectWebSocketWithRetry N attempt = none)
    ∧ (∀ (N : Nat) (attempt : Nat → Option String) (e : String),
      0 < N → (∀ i, i < N → attempt i ≠ none) → attempt (N - 1) = some e →
      chrome.connectWebSocketWithRetry N attempt
        = some ("failed to connect to WebSocket after " ++ toString N ++
            " attempts: " ++ e)
      ∧ firefox.connectWebSocketWithRetry N attempt
        = some ("failed to connect to WebSocket after " ++ toString N ++
            " attempts: " ++ e)) := by
  constructor
  · intro N k attempt hkN hfail hk
    have h := retryFrom_success attempt N N 0 none k (Nat.zero_le k) (by omega)
      (fun j _ h2 => hfail j h2) hk
    exact ⟨h, h⟩
  · intro N attempt e hN hfail hlast
    have h := retryFrom_exhaust attempt N N 0 none (fun j _ h2 => hfail j (by omega))
    have hf : finalErr attempt N 0 none = some e := by
      unfold finalErr
      rw [if_neg (by omega)]
      simpa using hlast
    rw [hf] at h
    simp only [errText] at h
    exact ⟨h, h⟩

/-- Closed instance of `connect_retry_semantics`: an attempt sequence
failing once then succeeding within a budget of 2, and one failing on
both attempts. -/
theorem connect_retry_semantics_witness :
    chrome.connectWebSocketWithRetry 2
      (fun i => if i = 0 then some "dial error" else none) = none
    ∧ chrome.connectWebSocketWithRetry 2 (fun _ => some "dial error")
      = some "failed to connect to WebSocket after 2 attempts: dial error" :=
  ⟨(connect_retry_semantics.1 2 1
      (fun i => if i = 0 then some "dial error" else none)
      (by decide) (by decide) rfl).1,
   (connect_retry_semantics.2 2 (fun _ => some "dial error") "dial error"
      (by decide) (by decide) rfl).1⟩

/-- C7: `Kill` is idempotent — the stop channel is closed exactly once
(a first call on an unsignalled session increments the close count to
one, any later call leaves it untouched, so the
close-of-closed-channel panic is unreachable), and a `Kill` issued
after a `Kill` that completed without error also returns without
error. -/
theorem kill_idempotent :
    ∀ (st : LifeState) (k1 k2 : Bool),
      (st.doneClosed = false →
        (BaseBrowser.Kill st k1).1.closeCount = st.closeCount + 1)
      ∧ (st.doneClosed = true →
        (BaseBrowser.Kill st k1).1.closeCount = st.closeCount)
      ∧ (BaseBrowser.Kill st k1).1.doneClosed = true
      ∧ (BaseBrowser.Kill (BaseBrowser.Kill st k1).1 k2).1.closeCount
          = (BaseBrowser.Kill st k1).1.closeCount
      ∧ ((BaseBrowser.Kill st k1).2 = none →
          (BaseBrowser.Kill (BaseBrowser.Kill st k1).1 k2).2 = none) := by
  intro st k1 k2
  rcases st with ⟨dc, cc, ws, dr, hp, sc, pa, pd⟩
  cases dc <;> cases hp <;> cases pa <;> cases k1 <;> cases k2 <;>
    simp [BaseBrowser.Kill]

/-- Closed instance of `kill_idempotent`: a second `Kill` after a
successful one returns no error. -/
theorem kill_idempotent_witness :
    (BaseBrowser.Kill
      (BaseBrowser.Kill ⟨false, 0, true, true, true, 1, true, []⟩ true).1 false).2
      = none :=
  (kill_idempotent ⟨false, 0, true, true, true, 1, true, []⟩ true false).2.2.2.2 rfl

/-- C8: `Start` is idempotent — when the process handle already exists
the call returns the state unchanged with no error and spawns nothing,
and after any successful `Start` a second invocation is exactly such a
no-op (the spawn count, hence the number of processes ever launched,
does not change). -/
theorem start_idempotent :
    ∀ (st : LifeState) (k1 k2 : Bool),
      (st.hasProc = true → BaseBrowser.Start st k1 = (st, none))
      ∧ ((BaseBrowser.Start st k1).2 = none →
          BaseBrowser.Start (BaseBrowser.Start st k1).1 k2
            = ((BaseBrowser.Start st k1).1, none)) := by
  intro st k1 k2
  rcases st with ⟨dc, cc, ws, dr, hp, sc, pa, pd⟩
  cases hp <;> cases k1 <;> cases k2 <;> simp [BaseBrowser.Start]

/-- Closed instance of `start_idempotent` at a state whose process
handle already exists. -/
theorem start_idempotent_witness :
    BaseBrowser.Start ⟨false, 0, false, true, true, 1, true, []⟩ true
      = (⟨false, 0, false, true, true, 1, true, []⟩, none) :=
  (start_idempotent ⟨false, 0, false, true, true, 1, true, []⟩ true true).1 rfl

/-- C9: the Firefox variant's `Load` returns success for every url and
its `Eval` returns `("", "", nil)` for every expression, regardless of
whether any transport exists — it can never return NotConnected, a
protocol error, or any other error from these two operations. -/
theorem firefox_load_eval_stubs :
    ∀ (ws : Bool) (url expr : String),
      firefox.Load ws url = Except.ok ()
      ∧ firefox.Eval ws expr = Except.ok ("", "") :=
  fun _ _ _ => ⟨rfl, rfl⟩

/-- C10: `Bind` errors exactly when the name is already registered;
otherwise it stores the function and returns nil.  Hence for any name
the first `Bind` succeeds, and a later `Bind` of the same name fails
while leaving the originally stored binding in place. -/
theorem bind_first_wins :
    ∀ (F : Type) (bs : List (String × F)) (n : String) (f g : F),
      ((BaseBrowser.Bind bs n f).2.isSome = (bs.lookup n).isSome)
      ∧ ((bs.lookup n).isSome = true →
          BaseBrowser.Bind bs n f
            = (bs, some ("binding " ++ n ++ " already exists")))
      ∧ (bs.lookup n = none →
          (BaseBrowser.Bind bs n f).2 = none
          ∧ (BaseBrowser.Bind bs n f).1.lookup n = some f
          ∧ (BaseBrowser.Bind (BaseBrowser.Bind bs n f).1 n g).2
              = some ("binding " ++ n ++ " already exists")
          ∧ (BaseBrowser.Bind (BaseBrowser.Bind bs n f).1 n g).1.lookup n
              = some f) := by
  intro F bs n f g
  rcases hl : bs.lookup n with _ | v
  · have hb : BaseBrowser.Bind bs n f = ((n, f) :: bs, none) := by
      simp [BaseBrowser.Bind, hl]
    have hlook : ((n, f) :: bs).lookup n = some f := by simp [List.lookup]
    have hb2 : BaseBrowser.Bind ((n, f) :: bs) n g
        = ((n, f) :: bs, some ("binding " ++ n ++ " already exists")) := by
      simp [BaseBrowser.Bind, hlook]
    refine ⟨by simp [hb, hl], fun hc => by simp [hl] at hc, fun _ => ?_⟩
    refine ⟨by simp [hb], by simp [hb, hlook], by simp [hb, hb2], by simp [hb, hb2, hlook]⟩
  · have hi : (bs.lookup n).isSome = true := by simp [hl]
    have hb : BaseBrowser.Bind bs n f
        = (bs, some ("binding " ++ n ++ " already exists")) := by
      simp [BaseBrowser.Bind, hi]
    exact ⟨by simp [hb, hl], fun _ => hb, fun hc => Option.noConfusion hc⟩

/-- Closed instance of `bind_first_wins`: binding "log" twice — the
first succeeds, the second fails and the first function (here tagged
`0`) stays registered. -/
theorem bind_first_wins_witness :
    (BaseBrowser.Bind ([] : List (String × Nat)) "log" 0).2 = none
    ∧ (BaseBrowser.Bind (BaseBrowser.Bind ([] : List (String × Nat)) "log" 0).1
        "log" 1).2 = some "binding log already exists"
    ∧ (BaseBrowser.Bind (BaseBrowser.Bind ([] : List (String × Nat)) "log" 0).1
        "log" 1).1.lookup "log" = some 0 :=
  have h := (bind_first_wins Nat [] "log" 0 1).2.2 rfl
  ⟨h.1, h.2.2.1, h.2.2.2⟩

end Majorca
